import Mathlib

/-
  Verification of the dbxsql query-execution and retry pipeline.

  The repository ships its test suite under src/tests; the implementation
  modules (dbxsql.models, dbxsql.query_handler) are not present in the
  source tree, so every component below is modelled from spec.md, which
  was written from that implementation.  Row values are kept abstract
  (a type parameter), delays and execution times are modelled as exact
  rationals, and raised Python exceptions are modelled with Except.
-/

namespace Dbxsql

/-- Modelled from the spec (section 3, Column Descriptor): an ordered
sequence of (name, driver-reported-type) pairs supplied by the cursor;
it may be absent, in which case synthetic names are generated. -/
abbrev ColumnDescriptor := List (String × String)

/-- Modelled from the spec (section 3, Record): the polymorphic record
type with a fixed-schema typed variant and a generic key/value variant
backed by an ordered mapping from column name to value. -/
inductive Record (α : Type) where
  | typed (fields : List (String × α)) : Record α
  | generic (data : List (String × α)) : Record α
  deriving DecidableEq, Repr

/-- Modelled from the spec (section 3, Model Registry / section 4.1 step 3):
a Record variant constructor, represented by its attempted construction
from a column-name-to-value mapping; `none` models a field-validation
failure (missing required field, wrong type, rejected extra fields). -/
structure ModelClass (α : Type) where
  construct : List (String × α) → Option (Record α)

/-- Synthesized names for every position of a row, numbering positions
from `start`. -/
def syntheticMapping : Nat → List α → List (String × α)
  | _, [] => []
  | start, v :: vs => ("column_" ++ toString start, v) :: syntheticMapping (start + 1) vs

/-- Modelled from the spec (section 4.1 step 2) as corrected by the
repository tests (test_parse_results_column_count_mismatch and
test_parse_results_no_cursor_description in
tests/test_query_handler.py): when the descriptor is present and has
exactly as many named columns as the row has values, zip the
driver-reported names to the values; on any length mismatch, and when
the descriptor is absent entirely, synthesize names column_i for every
position of the row. -/
def buildMapping (cols : Option ColumnDescriptor) (row : List α) : List (String × α) :=
  match cols with
  | some cs =>
    if cs.length = row.length then (cs.map Prod.fst).zip row
    else syntheticMapping 0 row
  | none => syntheticMapping 0 row

/-- Modelled from the spec (section 4.1 step 3): attempt to construct the
target Record variant from the mapping; on field-validation failure,
silently fall back to the generic key/value Record from the same mapping. -/
def parse_single_row (target : ModelClass α) (cols : Option ColumnDescriptor)
    (row : List α) : Record α :=
  let m := buildMapping cols row
  match target.construct m with
  | some r => r
  | none => Record.generic m

/-- Modelled from the spec (section 7): the parser-internal failure kind
raised outside the per-row fallback path. -/
inductive ParseError where
  | dataParsingError (msg : String)
  deriving DecidableEq, Repr

/-- Modelled from the spec (section 4.1 step 4): run a per-row parsing
function over all rows; any failure it raises is wrapped and re-raised
as a DataParsingError carrying the original message, aborting the
entire parse. -/
def parseResultsWith (f : List α → Except String (Record α)) :
    List (List α) → Except ParseError (List (Record α))
  | [] => Except.ok []
  | row :: rest =>
    match f row with
    | Except.error e =>
      Except.error (ParseError.dataParsingError ("Failed to parse query results: " ++ e))
    | Except.ok rec =>
      match parseResultsWith f rest with
      | Except.error err => Except.error err
      | Except.ok recs => Except.ok (rec :: recs)

/-- Modelled from the spec (section 4.1): the Result Parser contract
`parse(rows, columns, target)`; the per-row path never raises because
validation failures fall back to the generic record. -/
def parse_results (target : ModelClass α) (cols : Option ColumnDescriptor)
    (rows : List (List α)) : Except ParseError (List (Record α)) :=
  parseResultsWith (fun row => Except.ok (parse_single_row target cols row)) rows

lemma parseResultsWith_ok (f : List α → Except String (Record α))
    (g : List α → Record α) (hf : ∀ row, f row = Except.ok (g row)) :
    ∀ rows, parseResultsWith f rows = Except.ok (rows.map g) := by
  intro rows
  induction rows with
  | nil => simp [parseResultsWith]
  | cons row rest ih => simp [parseResultsWith, hf row, ih]

lemma parse_results_eq_map (target : ModelClass α) (cols : Option ColumnDescriptor)
    (rows : List (List α)) :
    parse_results target cols rows =
      Except.ok (rows.map (parse_single_row target cols)) :=
  parseResultsWith_ok _ _ (fun _ => rfl) rows

lemma syntheticMapping_get? :
    ∀ (row : List α) (start i : Nat),
      (syntheticMapping start row).get? i =
        (row.get? i).map (fun v => ("column_" ++ toString (start + i), v)) := by
  intro row
  induction row with
  | nil => intro start i; simp [syntheticMapping]
  | cons v vs ih =>
    intro start i
    cases i with
    | zero => simp [syntheticMapping]
    | succ j =>
      have h := ih (start + 1) j
      simp only [syntheticMapping, List.get?]
      rw [h]
      have : start + 1 + j = start + (j + 1) := by omega
      rw [this]

/-- C1: parsing n rows yields exactly n output records, one per input row
in input order, and parsing an empty row list returns an empty sequence
without error. -/
theorem parse_results_one_record_per_row (α : Type) (target : ModelClass α)
    (cols : Option ColumnDescriptor) (rows : List (List α)) :
    (∃ out, parse_results target cols rows = Except.ok out ∧
       out.length = rows.length ∧
       ∀ i, out.get? i = (rows.get? i).map (parse_single_row target cols)) ∧
    parse_results target cols ([] : List (List α)) = Except.ok [] := by
  refine ⟨⟨rows.map (parse_single_row target cols),
    parse_results_eq_map target cols rows, by simp, ?_⟩, ?_⟩
  · intro i
    simp [List.get?_map]
  · simp [parse_results, parseResultsWith]

/-- C5 counterexample: at the input of the cited repository test (a
three-name descriptor and a four-value row) the first row position is
covered by the descriptor whose driver-reported name is "column1", yet
the mapping names it "column_0" — the covered position does not keep
the driver-reported name. -/
theorem parse_column_names_counterexample :
    (buildMapping
        (some [("column1", "string"), ("column2", "int"), ("column3", "float")])
        ["val1", "val2", "val3", "val4"]).get? 0 = some ("column_0", "val1") ∧
    ¬ ((buildMapping
        (some [("column1", "string"), ("column2", "int"), ("column3", "float")])
        ["val1", "val2", "val3", "val4"]).get? 0 = some ("column1", "val1")) := by
  constructor
  · rfl
  · decide

/-- C5 as amended: when the descriptor is present and its length equals
the row length, driver-reported names are zipped to the values; on any
length mismatch (in particular a row with more values than named
columns) every position of the row receives a synthesized name
column_i, as it does when the descriptor is absent entirely. -/
theorem parse_column_names_corrected (α : Type) (cols : ColumnDescriptor) (row : List α) :
    (cols.length = row.length →
      buildMapping (some cols) row = (cols.map Prod.fst).zip row) ∧
    (cols.length ≠ row.length →
      ∀ i, (buildMapping (some cols) row).get? i =
        (row.get? i).map (fun v => ("column_" ++ toString i, v))) ∧
    (∀ i, (buildMapping (none : Option ColumnDescriptor) row).get? i =
      (row.get? i).map (fun v => ("column_" ++ toString i, v))) := by
  refine ⟨?_, ?_, ?_⟩
  · intro h
    simp [buildMapping, h]
  · intro h i
    have hb : buildMapping (some cols) row = syntheticMapping 0 row := by
      simp [buildMapping, h]
    rw [hb]
    simpa using syntheticMapping_get? row 0 i
  · intro i
    have hb : buildMapping (none : Option ColumnDescriptor) row =
        syntheticMapping 0 row := rfl
    rw [hb]
    simpa using syntheticMapping_get? row 0 i

/-- Witness for the amended C5: a matching one-name descriptor keeps the
driver name, while at the test input (three names, four values) the
overflowing row gets synthesized names at every position, shown here at
positions 0 and 3. -/
theorem parse_column_names_corrected_witness :
    buildMapping (some [("column1", "string")]) ["v1"] = [("column1", "v1")] ∧
    (buildMapping
        (some [("column1", "string"), ("column2", "int"), ("column3", "float")])
        ["val1", "val2", "val3", "val4"]).get? 0 = some ("column_0", "val1") ∧
    (buildMapping
        (some [("column1", "string"), ("column2", "int"), ("column3", "float")])
        ["val1", "val2", "val3", "val4"]).get? 3 = some ("column_3", "val4") :=
  ⟨((parse_column_names_corrected String [("column1", "string")] ["v1"]).1 rfl).trans
      (by decide),
   ((parse_column_names_corrected String
      [("column1", "string"), ("column2", "int"), ("column3", "float")]
      ["val1", "val2", "val3", "val4"]).2.1 (by decide) 0).trans (by decide),
   ((parse_column_names_corrected String
      [("column1", "string"), ("column2", "int"), ("column3", "float")]
      ["val1", "val2", "val3", "val4"]).2.1 (by decide) 3).trans (by decide)⟩

lemma parseResultsWith_first_failure (f : List α → Except String (Record α)) :
    ∀ (pre : List (List α)) (row : List α) (post : List (List α)) (e : String),
      (∀ r ∈ pre, ∃ rec, f r = Except.ok rec) →
      f row = Except.error e →
      parseResultsWith f (pre ++ row :: post) =
        Except.error (ParseError.dataParsingError ("Failed to parse query results: " ++ e)) := by
  intro pre
  induction pre with
  | nil =>
    intro row post e _ hrow
    simp [parseResultsWith, hrow]
  | cons r rest ih =>
    intro row post e hok hrow
    obtain ⟨rec, hrec⟩ := hok r (by simp)
    have hrest : ∀ r₀ ∈ rest, ∃ rec₀, f r₀ = Except.ok rec₀ := by
      intro r₀ hr₀; exact hok r₀ (by simp [hr₀])
    have h := ih row post e hrest hrow
    simp [parseResultsWith, hrec, h]

/-- C8: a row failing the target variant validation does not raise — the
parser falls back to the generic record built from the same mapping, the
output keeping one record for every row; only a failure of the per-row
parsing step itself is wrapped and re-raised as a DataParsingError,
aborting the entire parse. -/
theorem parse_fallback_and_wrap (α : Type) (target : ModelClass α)
    (cols : Option ColumnDescriptor) (rows : List (List α))
    (f : List α → Except String (Record α))
    (pre : List (List α)) (row : List α) (post : List (List α)) (e : String)
    (hfail : target.construct (buildMapping cols row) = none)
    (hok : ∀ r ∈ pre, ∃ rec, f r = Except.ok rec)
    (hraise : f row = Except.error e) :
    parse_single_row target cols row = Record.generic (buildMapping cols row) ∧
    (∃ out, parse_results target cols rows = Except.ok out ∧
       out.length = rows.length) ∧
    parseResultsWith f (pre ++ row :: post) =
      Except.error (ParseError.dataParsingError ("Failed to parse query results: " ++ e)) := by
  refine ⟨?_, ⟨rows.map (parse_single_row target cols),
    parse_results_eq_map target cols rows, by simp⟩, ?_⟩
  · simp [parse_single_row, hfail]
  · exact parseResultsWith_first_failure f pre row post e hok hraise

/-- Witness for C8: a one-column row rejected by a strict model class
falls back to the generic record, and a per-row function raising on that
row aborts the parse with a wrapped DataParsingError. -/
theorem parse_fallback_and_wrap_witness :
    (ModelClass.mk (fun _ => (none : Option (Record Nat)))).construct
        (buildMapping none [7]) = none ∧
    ((fun _ => Except.error "Parse error" :
        List Nat → Except String (Record Nat)) [7] = Except.error "Parse error") ∧
    (parse_single_row (ModelClass.mk (fun _ => none)) none [7] =
        Record.generic (buildMapping none [7]) ∧
     (∃ out, parse_results (ModelClass.mk (fun _ => (none : Option (Record Nat))))
         none [[7], [8]] = Except.ok out ∧ out.length = 2) ∧
     parseResultsWith (fun _ => Except.error "Parse error" :
         List Nat → Except String (Record Nat)) ([] ++ [7] :: []) =
       Except.error (ParseError.dataParsingError
         ("Failed to parse query results: " ++ "Parse error"))) := by
  refine ⟨rfl, rfl, ?_⟩
  exact parse_fallback_and_wrap Nat (ModelClass.mk (fun _ => none)) none
    [[7], [8]] (fun _ => Except.error "Parse error") [] [7] [] "Parse error"
    rfl (by intro r hr; exact absurd hr (by simp)) rfl

/-- Modelled from the spec (sections 4.2 and 7): the classified error
kinds an operation run under the Retry Policy can raise; the constructor
named synError models the SyntaxError kind for statements rejected for
syntax reasons. -/
inductive OpError where
  | synError (msg : String)
  | queryExecutionError (msg : String)
  | timeoutError (msg : String)
  deriving DecidableEq, Repr

/-- Modelled from the spec (section 4.2): a syntax-error classification is
never retried; all other classified execution/timeout errors are
retryable. -/
def isRetryable : OpError → Bool
  | OpError.synError _ => false
  | OpError.queryExecutionError _ => true
  | OpError.timeoutError _ => true

instance exceptDecEq {ε α : Type} [DecidableEq ε] [DecidableEq α] :
    DecidableEq (Except ε α) := fun a b =>
  match a, b with
  | Except.ok x, Except.ok y =>
    if h : x = y then Decidable.isTrue (by rw [h])
    else Decidable.isFalse (by intro hc; cases hc; exact h rfl)
  | Except.error x, Except.error y =>
    if h : x = y then Decidable.isTrue (by rw [h])
    else Decidable.isFalse (by intro hc; cases hc; exact h rfl)
  | Except.ok _, Except.error _ => Decidable.isFalse (by intro hc; cases hc)
  | Except.error _, Except.ok _ => Decidable.isFalse (by intro hc; cases hc)

/-- Observable outcome of one execute_with_retry run: the returned value
or re-raised error, the number of attempts made, and the sleep durations
in the order they were requested. -/
structure RetryResult (β : Type) where
  outcome : Except OpError β
  attempts : Nat
  sleeps : List ℚ
  deriving DecidableEq, Repr

/-- Modelled from the spec (section 4.2): the retry loop.  The operation
is modelled as a function from the zero-based attempt index to that
outcome of that attempt; `remaining` counts the attempts still allowed.  On
success return immediately; re-raise a non-retryable error at once; on a
retryable error sleep base_delay * 2 ^ attempt before the next attempt,
or re-raise the last captured error when attempts are exhausted. -/
def retryGo (op : Nat → Except OpError β) (base_delay : ℚ) :
    Nat → Nat → List ℚ → RetryResult β
  | 0, attempt, sleeps =>
    ⟨Except.error (OpError.queryExecutionError
        "Operation failed after all retry attempts"), attempt, sleeps⟩
  | Nat.succ remaining, attempt, sleeps =>
    match op attempt with
    | Except.ok v => ⟨Except.ok v, attempt + 1, sleeps⟩
    | Except.error e =>
      if isRetryable e then
        if remaining = 0 then ⟨Except.error e, attempt + 1, sleeps⟩
        else
          retryGo op base_delay remaining (attempt + 1)
            (sleeps ++ [base_delay * 2 ^ attempt])
      else ⟨Except.error e, attempt + 1, sleeps⟩

/-- Modelled from the spec (section 4.2): execute_with_retry attempts the
operation up to max_retries + 1 times total, starting at attempt index 0
with no sleep before the first attempt. -/
def execute_with_retry (op : Nat → Except OpError β) (max_retries : Nat)
    (base_delay : ℚ) : RetryResult β :=
  retryGo op base_delay (max_retries + 1) 0 []

lemma retryGo_success (op : Nat → Except OpError β) (base_delay : ℚ) (v : β)
    (errs : Nat → OpError) :
    ∀ (k remaining attempt : Nat) (sleeps : List ℚ),
      k < remaining →
      (∀ i, i < k → op (attempt + i) = Except.error (errs (attempt + i)) ∧
        isRetryable (errs (attempt + i)) = true) →
      op (attempt + k) = Except.ok v →
      retryGo op base_delay remaining attempt sleeps =
        ⟨Except.ok v, attempt + k + 1,
          sleeps ++ (List.range k).map (fun i => base_delay * 2 ^ (attempt + i))⟩ := by
  intro k
  induction k with
  | zero =>
    intro remaining attempt sleeps hk _ hsucc
    obtain ⟨r, rfl⟩ := Nat.exists_eq_succ_of_ne_zero (Nat.pos_iff_ne_zero.mp hk)
    rw [show attempt + 0 = attempt from rfl] at hsucc
    simp [retryGo, hsucc]
  | succ k ih =>
    intro remaining attempt sleeps hk hfail hsucc
    obtain ⟨r, rfl⟩ := Nat.exists_eq_succ_of_ne_zero (Nat.pos_iff_ne_zero.mp
      (Nat.lt_of_lt_of_le (Nat.zero_lt_succ k) (Nat.le_of_lt hk)))
    obtain ⟨herr, hret⟩ := hfail 0 (Nat.zero_lt_succ k)
    rw [show attempt + 0 = attempt from rfl] at herr hret
    have hr : r ≠ 0 := by omega
    simp only [retryGo, herr, hret, if_true, hr, if_false]
    have hfail₁ : ∀ i, i < k → op (attempt + 1 + i) = Except.error (errs (attempt + 1 + i)) ∧
        isRetryable (errs (attempt + 1 + i)) = true := by
      intro i hi
      have h := hfail (i + 1) (by omega)
      have heq : attempt + (i + 1) = attempt + 1 + i := by omega
      rw [heq] at h
      exact h
    have hsucc₁ : op (attempt + 1 + k) = Except.ok v := by
      have heq : attempt + (k + 1) = attempt + 1 + k := by omega
      rw [heq] at hsucc
      exact hsucc
    have h := ih r (attempt + 1) (sleeps ++ [base_delay * 2 ^ attempt])
      (by omega) hfail₁ hsucc₁
    rw [h]
    have hsl : (sleeps ++ [base_delay * 2 ^ attempt]) ++
        (List.range k).map (fun i => base_delay * 2 ^ (attempt + 1 + i)) =
        sleeps ++ (List.range (k + 1)).map (fun i => base_delay * 2 ^ (attempt + i)) := by
      rw [List.append_assoc, List.range_succ_eq_map, List.map_cons, List.map_map]
      have hmap : (List.range k).map ((fun i => base_delay * 2 ^ (attempt + i)) ∘ Nat.succ) =
          (List.range k).map (fun i => base_delay * 2 ^ (attempt + 1 + i)) := by
        apply List.map_congr_left
        intro i _
        simp only [Function.comp_apply]
        congr 2
        omega
      rw [hmap]
      simp
    rw [hsl]
    congr 1
    omega

/-- C2: an operation failing with retryable errors on the first k attempts
(k < max_retries) and succeeding on attempt k returns the success value
after exactly k + 1 attempts with exactly k sleeps, whose durations are
base_delay * 2 ^ 0, ..., base_delay * 2 ^ (k - 1) in that order; no sleep
happens before the first attempt or after the successful one. -/
theorem execute_with_retry_backoff (β : Type) (op : Nat → Except OpError β)
    (v : β) (errs : Nat → OpError) (max_retries k : Nat) (base_delay : ℚ)
    (hk : k < max_retries)
    (hfail : ∀ i, i < k → op i = Except.error (errs i) ∧ isRetryable (errs i) = true)
    (hsucc : op k = Except.ok v) :
    execute_with_retry op max_retries base_delay =
      ⟨Except.ok v, k + 1, (List.range k).map (fun i => base_delay * 2 ^ i)⟩ := by
  have h := retryGo_success op base_delay v errs k (max_retries + 1) 0 []
    (by omega) (by simpa using hfail) (by simpa using hsucc)
  simpa using h

/-- Witness for C2: with max_retries = 3 and base_delay = 1, an operation
failing retryably on attempts 0 and 1 and succeeding on attempt 2 returns
the value after 3 attempts with sleeps [1, 2]. -/
theorem execute_with_retry_backoff_witness :
    (2 < 3 ∧
     (∀ i, i < 2 →
       (fun n => if n < 2 then Except.error (OpError.queryExecutionError "error")
            else Except.ok 99) i =
         Except.error ((fun _ => OpError.queryExecutionError "error") i) ∧
       isRetryable ((fun _ => OpError.queryExecutionError "error") i) = true) ∧
     (fun n => if n < 2 then Except.error (OpError.queryExecutionError "error")
          else Except.ok 99) 2 = Except.ok 99) ∧
    execute_with_retry
        (fun n => if n < 2 then Except.error (OpError.queryExecutionError "error")
          else Except.ok (99 : Nat)) 3 1 =
      ⟨Except.ok 99, 3, (List.range 2).map (fun i => (1 : ℚ) * 2 ^ i)⟩ :=
  ⟨⟨by decide, by decide, by decide⟩,
    execute_with_retry_backoff Nat _ 99 (fun _ => OpError.queryExecutionError "error")
      3 2 1 (by decide) (by decide) (by decide)⟩

/-- C3: an operation raising a syntax-classified error on the first
attempt is never retried: execute_with_retry re-raises that same error
after exactly one attempt and zero sleeps, for every max_retries. -/
theorem execute_with_retry_syn_error_fast_fail (β : Type)
    (op : Nat → Except OpError β) (msg : String) (max_retries : Nat)
    (base_delay : ℚ) (h : op 0 = Except.error (OpError.synError msg)) :
    execute_with_retry op max_retries base_delay =
      ⟨Except.error (OpError.synError msg), 1, []⟩ := by
  simp [execute_with_retry, retryGo, h, isRetryable]

/-- Witness for C3: a first-attempt syntax error with max_retries = 3 is
re-raised after one attempt and no sleep. -/
theorem execute_with_retry_syn_error_fast_fail_witness :
    ((fun _ => Except.error (OpError.synError "syn error") :
        Nat → Except OpError Nat) 0 =
      Except.error (OpError.synError "syn error")) ∧
    execute_with_retry
        (fun _ => Except.error (OpError.synError "syn error") :
          Nat → Except OpError Nat) 3 1 =
      ⟨Except.error (OpError.synError "syn error"), 1, []⟩ :=
  ⟨rfl, execute_with_retry_syn_error_fast_fail Nat _ "syn error" 3 1 rfl⟩

lemma sleeps_shift (base_delay : ℚ) (sleeps : List ℚ) (attempt k : Nat) :
    (sleeps ++ [base_delay * 2 ^ attempt]) ++
      (List.range k).map (fun i => base_delay * 2 ^ (attempt + 1 + i)) =
    sleeps ++ (List.range (k + 1)).map (fun i => base_delay * 2 ^ (attempt + i)) := by
  rw [List.append_assoc, List.range_succ_eq_map, List.map_cons, List.map_map]
  have hmap : (List.range k).map ((fun i => base_delay * 2 ^ (attempt + i)) ∘ Nat.succ) =
      (List.range k).map (fun i => base_delay * 2 ^ (attempt + 1 + i)) := by
    apply List.map_congr_left
    intro i _
    simp only [Function.comp_apply]
    congr 2
    omega
  rw [hmap]
  simp

lemma retryGo_all_fail (op : Nat → Except OpError β) (base_delay : ℚ)
    (errs : Nat → OpError) :
    ∀ (m attempt : Nat) (sleeps : List ℚ),
      (∀ i, i ≤ m → op (attempt + i) = Except.error (errs (attempt + i)) ∧
        isRetryable (errs (attempt + i)) = true) →
      retryGo op base_delay (m + 1) attempt sleeps =
        ⟨Except.error (errs (attempt + m)), attempt + m + 1,
          sleeps ++ (List.range m).map (fun i => base_delay * 2 ^ (attempt + i))⟩ := by
  intro m
  induction m with
  | zero =>
    intro attempt sleeps hfail
    obtain ⟨herr, hret⟩ := hfail 0 (Nat.le_refl 0)
    rw [show attempt + 0 = attempt from rfl] at herr hret
    simp [retryGo, herr, hret]
  | succ m ih =>
    intro attempt sleeps hfail
    obtain ⟨herr, hret⟩ := hfail 0 (Nat.zero_le _)
    rw [show attempt + 0 = attempt from rfl] at herr hret
    have hm : m + 1 ≠ 0 := Nat.succ_ne_zero m
    rw [retryGo]
    simp only [herr, hret, if_true, hm, if_false]
    have hfail₁ : ∀ i, i ≤ m → op (attempt + 1 + i) = Except.error (errs (attempt + 1 + i)) ∧
        isRetryable (errs (attempt + 1 + i)) = true := by
      intro i hi
      have h := hfail (i + 1) (by omega)
      have heq : attempt + (i + 1) = attempt + 1 + i := by omega
      rw [heq] at h
      exact h
    have h := ih (attempt + 1) (sleeps ++ [base_delay * 2 ^ attempt]) hfail₁
    rw [h, sleeps_shift]
    have heq₁ : attempt + 1 + m = attempt + (m + 1) := by omega
    rw [heq₁]

/-- C4: an operation raising a retryable error on every attempt with
max_retries = m makes exactly m + 1 attempts, sleeps exactly m times,
and re-raises the error captured on the last attempt. -/
theorem execute_with_retry_exhaustion (β : Type) (op : Nat → Except OpError β)
    (errs : Nat → OpError) (max_retries : Nat) (base_delay : ℚ)
    (hfail : ∀ i, i ≤ max_retries →
      op i = Except.error (errs i) ∧ isRetryable (errs i) = true) :
    execute_with_retry op max_retries base_delay =
      ⟨Except.error (errs max_retries), max_retries + 1,
        (List.range max_retries).map (fun i => base_delay * 2 ^ i)⟩ := by
  have h := retryGo_all_fail op base_delay errs max_retries 0 [] (by simpa using hfail)
  simpa using h

/-- Witness for C4: with max_retries = 2 and a persistently failing
retryable operation, three attempts are made, two sleeps happen, and the
last error is re-raised. -/
theorem execute_with_retry_exhaustion_witness :
    (∀ i, i ≤ 2 →
      (fun _ => Except.error (OpError.queryExecutionError "persistent error") :
          Nat → Except OpError Nat) i =
        Except.error ((fun _ => OpError.queryExecutionError "persistent error") i) ∧
      isRetryable ((fun _ => OpError.queryExecutionError "persistent error") i) = true) ∧
    execute_with_retry
        (fun _ => Except.error (OpError.queryExecutionError "persistent error") :
          Nat → Except OpError Nat) 2 1 =
      ⟨Except.error (OpError.queryExecutionError "persistent error"), 3,
        (List.range 2).map (fun i => (1 : ℚ) * 2 ^ i)⟩ :=
  ⟨by decide,
    execute_with_retry_exhaustion Nat _ (fun _ => OpError.queryExecutionError "persistent error")
      2 1 (by decide)⟩

/-- Modelled from the spec (section 3, QueryResult.status): the status
enum; the constructor named synError models the syntax_error status. -/
inductive QueryStatus where
  | success
  | failed
  | timeout
  | synError
  deriving DecidableEq, Repr

/-- Modelled from the spec (section 3, QueryResult): the result envelope,
parameterised by the record type carried in `data`; raw row tuples are
abstracted away since no claim depends on them. -/
structure QueryResult (ρ : Type) where
  status : QueryStatus
  data : Option (List ρ) := none
  row_count : Nat := 0
  execution_time_seconds : Option ℚ := none
  error_message : Option String := none
  query : Option String := none
  deriving DecidableEq, Repr

/-- Modelled from the spec (section 3, QueryMetrics): the running
aggregate, created empty at Query Handler construction. -/
structure QueryMetrics where
  total_queries : Nat := 0
  successful_queries : Nat := 0
  failed_queries : Nat := 0
  total_execution_time : ℚ := 0
  average_execution_time : Option ℚ := none
  deriving DecidableEq, Repr

/-- Modelled from the spec (section 3, QueryMetrics): add_query_result
increments total_queries, increments successful_queries or
failed_queries based on the status, adds execution_time_seconds
(treated as 0 if absent) to total_execution_time, and recomputes the
average. -/
def add_query_result (m : QueryMetrics) (r : QueryResult ρ) : QueryMetrics :=
  let tq := m.total_queries + 1
  let tt := m.total_execution_time + (r.execution_time_seconds.getD 0)
  { total_queries := tq
    successful_queries :=
      if r.status = QueryStatus.success then m.successful_queries + 1
      else m.successful_queries
    failed_queries :=
      if r.status = QueryStatus.success then m.failed_queries
      else m.failed_queries + 1
    total_execution_time := tt
    average_execution_time := some (tt / (tq : ℚ)) }

/-- C6: add_query_result increments total_queries by one, increments
successful_queries or failed_queries according to the status, adds the
execution time (0 when absent) to total_execution_time and recomputes
the average; adding one success taking 2.0 and one failure taking 3.0
to fresh metrics yields totals (2, 1, 1, 5.0) with average 2.5. -/
theorem add_query_result_spec (ρ : Type) (m : QueryMetrics) (r : QueryResult ρ) :
    (add_query_result m r).total_queries = m.total_queries + 1 ∧
    (add_query_result m r).successful_queries =
      (if r.status = QueryStatus.success then m.successful_queries + 1
       else m.successful_queries) ∧
    (add_query_result m r).failed_queries =
      (if r.status = QueryStatus.success then m.failed_queries
       else m.failed_queries + 1) ∧
    (add_query_result m r).total_execution_time =
      m.total_execution_time + (r.execution_time_seconds.getD 0) ∧
    (add_query_result m r).average_execution_time =
      some ((m.total_execution_time + (r.execution_time_seconds.getD 0)) /
        ((m.total_queries + 1 : Nat) : ℚ)) ∧
    add_query_result
        (add_query_result ({} : QueryMetrics)
          ({ status := QueryStatus.success,
             execution_time_seconds := some 2 } : QueryResult ρ))
        ({ status := QueryStatus.failed,
           execution_time_seconds := some 3 } : QueryResult ρ) =
      { total_queries := 2, successful_queries := 1, failed_queries := 1,
        total_execution_time := 5, average_execution_time := some 2.5 } := by
  refine ⟨rfl, rfl, rfl, rfl, rfl, ?_⟩
  simp only [add_query_result]
  norm_num
  decide

/-- Modelled from the spec (section 7): the human-readable message an
error kind carries. -/
def errorText : OpError → String
  | OpError.synError m => m
  | OpError.queryExecutionError m => m
  | OpError.timeoutError m => m

/-- Modelled from the spec (section 4.4): execute_multiple_queries runs
the queries sequentially through the per-query execution path (modelled
as a function that returns a result or raises a classified error); a
failing query is converted into a failed-status QueryResult carrying
the caught error text instead of aborting the batch. -/
def execute_multiple_queries (exec : String → Except OpError (QueryResult ρ))
    (queries : List String) : List (QueryResult ρ) :=
  queries.map (fun q =>
    match exec q with
    | Except.ok r => r
    | Except.error e =>
      { status := QueryStatus.failed, error_message := some (errorText e),
        query := some q })

/-- C7: execute_multiple_queries returns one QueryResult per input query
in input order; a query whose execution raises becomes a failed-status
result whose error_message carries the caught error text, and the batch
still produces results for all later queries. -/
theorem execute_multiple_queries_spec (ρ : Type)
    (exec : String → Except OpError (QueryResult ρ)) (queries : List String) :
    (execute_multiple_queries exec queries).length = queries.length ∧
    (∀ i q r, queries.get? i = some q → exec q = Except.ok r →
      (execute_multiple_queries exec queries).get? i = some r) ∧
    (∀ i q e, queries.get? i = some q → exec q = Except.error e →
      (execute_multiple_queries exec queries).get? i =
        some { status := QueryStatus.failed, error_message := some (errorText e),
               query := some q }) := by
  refine ⟨by simp [execute_multiple_queries], ?_, ?_⟩
  · intro i q r hq hr
    rw [execute_multiple_queries, List.get?_map, hq]
    simp [hr]
  · intro i q e hq he
    rw [execute_multiple_queries, List.get?_map, hq]
    simp [he]

/-- Witness for C7: a two-query batch whose second query raises yields a
success result followed by a failed result carrying the error text. -/
theorem execute_multiple_queries_spec_witness :
    (["SELECT 1", "INVALID SQL"].get? 0 = some "SELECT 1" ∧
     (fun q => if q = "SELECT 1" then
         Except.ok ({ status := QueryStatus.success } : QueryResult Nat)
       else Except.error (OpError.queryExecutionError "Query failed")) "SELECT 1" =
       Except.ok { status := QueryStatus.success } ∧
     ["SELECT 1", "INVALID SQL"].get? 1 = some "INVALID SQL" ∧
     (fun q => if q = "SELECT 1" then
         Except.ok ({ status := QueryStatus.success } : QueryResult Nat)
       else Except.error (OpError.queryExecutionError "Query failed")) "INVALID SQL" =
       Except.error (OpError.queryExecutionError "Query failed")) ∧
    (execute_multiple_queries
        (fun q => if q = "SELECT 1" then
          Except.ok ({ status := QueryStatus.success } : QueryResult Nat)
        else Except.error (OpError.queryExecutionError "Query failed"))
        ["SELECT 1", "INVALID SQL"]).length = 2 ∧
    (execute_multiple_queries
        (fun q => if q = "SELECT 1" then
          Except.ok ({ status := QueryStatus.success } : QueryResult Nat)
        else Except.error (OpError.queryExecutionError "Query failed"))
        ["SELECT 1", "INVALID SQL"]).get? 1 =
      some { status := QueryStatus.failed,
             error_message := some (errorText (OpError.queryExecutionError "Query failed")),
             query := some "INVALID SQL" } := by
  refine ⟨⟨rfl, by simp, rfl, by simp⟩, ?_, ?_⟩
  · exact (execute_multiple_queries_spec Nat _ ["SELECT 1", "INVALID SQL"]).1.trans rfl
  · exact (execute_multiple_queries_spec Nat _ ["SELECT 1", "INVALID SQL"]).2.2
      1 "INVALID SQL" (OpError.queryExecutionError "Query failed") rfl (by simp)

/-- Modelled from the spec (section 3, Record): the generic record
variant backed by an ordered mapping from column name to value,
supporting item-style lookup and default-valued lookup. -/
structure GenericRecord (α : Type) where
  data : List (String × α)
  deriving DecidableEq, Repr

/-- First value bound to key `k` in an ordered mapping, none when the
key is absent. -/
def lookupKey (k : String) : List (String × α) → Option α
  | [] => none
  | kv :: rest => if kv.1 = k then some kv.2 else lookupKey k rest

/-- Modelled from the spec (section 3, Record) and tests/test_models.py
(test_generic_record_dict_access): item access on a GenericRecord
returns the stored value, or None when the key is absent, never
raising. -/
def GenericRecord.getItem (r : GenericRecord α) (k : String) : Option α :=
  lookupKey k r.data

/-- Modelled from the spec (section 3, Record) and tests/test_models.py
(test_generic_record_dict_access): default-valued lookup returning the
supplied default when the key is absent. -/
def GenericRecord.get (r : GenericRecord α) (k : String) (d : α) : α :=
  (r.getItem k).getD d

lemma lookupKey_eq_none_of_not_mem (k : String) :
    ∀ (l : List (String × α)), k ∉ l.map Prod.fst → lookupKey k l = none := by
  intro l
  induction l with
  | nil => intro _; rfl
  | cons kv rest ih =>
    intro h
    have hk : kv.1 ≠ k := by
      intro hc
      exact h (by simp [hc])
    have hrest : k ∉ rest.map Prod.fst := by
      intro hc
      exact h (by simp [hc])
    simp [lookupKey, hk, ih hrest]

/-- C9: for a key absent from a GenericRecord, item access totally
returns None and default-valued lookup returns the supplied default;
both are total functions, so no string key can make them raise. -/
theorem generic_record_missing_key (α : Type) (r : GenericRecord α)
    (k : String) (d : α) (h : k ∉ r.data.map Prod.fst) :
    r.getItem k = none ∧ r.get k d = d := by
  have hnone : r.getItem k = none := lookupKey_eq_none_of_not_mem k r.data h
  exact ⟨hnone, by simp [GenericRecord.get, hnone]⟩

/-- Witness for C9: the record from the dict-access test with key
"nonexistent" yields None from item access and the default from get. -/
theorem generic_record_missing_key_witness :
    ("nonexistent" ∉ (GenericRecord.mk [("name", 1), ("value", 123)]).data.map Prod.fst) ∧
    ((GenericRecord.mk [("name", 1), ("value", 123)]).getItem "nonexistent" = none ∧
     (GenericRecord.mk [("name", 1), ("value", 123)]).get "nonexistent" 7 = 7) :=
  ⟨by decide, generic_record_missing_key Nat
    (GenericRecord.mk [("name", 1), ("value", 123)]) "nonexistent" 7 (by decide)⟩

/-- Modelled from the spec (section 3, Record: fixed-schema records with
named, typed fields and per-field validation); the SalesRecord field
set, its non-negativity validation and its total_amount completion are
pinned by tests/test_models.py (TestSalesRecord): a missing
total_amount is computed as quantity * unit_price, a supplied one is
kept. -/
structure SalesRecord where
  transaction_id : String
  quantity : Int
  unit_price : ℚ
  total_amount : ℚ
  deriving DecidableEq, Repr

/-- Modelled from the spec (section 3): attempted construction of a
SalesRecord with per-field validation; an error models the pydantic
ValidationError raised by the field validators. -/
def mkSalesRecord (transaction_id : String) (quantity : Int) (unit_price : ℚ)
    (total_amount : Option ℚ) : Except String SalesRecord :=
  if quantity < 0 then Except.error "Quantity must be non-negative"
  else if unit_price < 0 then Except.error "Price must be non-negative"
  else Except.ok
    { transaction_id := transaction_id, quantity := quantity,
      unit_price := unit_price,
      total_amount := total_amount.getD ((quantity : ℚ) * unit_price) }

/-- C10: constructing a SalesRecord without a total_amount computes it
as quantity * unit_price; a supplied total_amount is kept unchanged
even when it differs from quantity * unit_price. -/
theorem sales_record_total_amount (tid : String) (q : Int) (p : ℚ) (t : ℚ)
    (hq : 0 ≤ q) (hp : 0 ≤ p) :
    (∃ r, mkSalesRecord tid q p none = Except.ok r ∧
       r.total_amount = (q : ℚ) * p) ∧
    (∃ r, mkSalesRecord tid q p (some t) = Except.ok r ∧ r.total_amount = t) := by
  have hq' : ¬q < 0 := not_lt.mpr hq
  have hp' : ¬p < 0 := not_lt.mpr hp
  constructor
  · have hrec : mkSalesRecord tid q p none =
        Except.ok ⟨tid, q, p, (q : ℚ) * p⟩ := by
      simp [mkSalesRecord, hq', hp']
    exact ⟨_, hrec, rfl⟩
  · have hrec : mkSalesRecord tid q p (some t) =
        Except.ok ⟨tid, q, p, t⟩ := by
      simp [mkSalesRecord, hq', hp']
    exact ⟨_, hrec, rfl⟩

/-- Witness for C10: quantity 3 at unit price 10.5 auto-computes total
31.5, and a supplied total of 25 with quantity 2 at unit price 10 is
kept although 2 * 10 = 20. -/
theorem sales_record_total_amount_witness :
    ((0 : Int) ≤ 3 ∧ (0 : ℚ) ≤ 10.5 ∧
     (∃ r, mkSalesRecord "TXN123" 3 10.5 none = Except.ok r ∧
        r.total_amount = ((3 : Int) : ℚ) * 10.5) ∧
     (∃ r, mkSalesRecord "TXN123" 3 10.5 (some 31.5) = Except.ok r ∧
        r.total_amount = 31.5)) ∧
    ((0 : Int) ≤ 2 ∧ (0 : ℚ) ≤ 10 ∧
     (∃ r, mkSalesRecord "TXN123" 2 10 (some 25) = Except.ok r ∧
        r.total_amount = 25)) :=
  ⟨⟨by decide, by norm_num,
    (sales_record_total_amount "TXN123" 3 10.5 31.5 (by decide) (by norm_num))⟩,
   ⟨by decide, by norm_num,
    (sales_record_total_amount "TXN123" 2 10 25 (by decide) (by norm_num)).2⟩⟩

end Dbxsql
